import Mathlib

/-!
Verification of the vCider API client library (src/python/vcider) against its
natural-language specification.  The Python code is shallowly embedded: JSON
documents become an inductive value type, the stateful resource objects become
explicit state records with state-passing operations, HTTP and JSON
encoding/decoding (external collaborators per the spec) become oracle
parameters, and exceptions become explicit error results.
-/

namespace VciderAPI

/- JSON-like values, mirroring the Python dictionaries that hold resource
data.  Arrays are not needed by any claim and are omitted; `JObj` is a
key-value sequence mirroring a Python dict (keys unique in practice). -/
mutual

/-- A JSON value as held in a resource's mirrored document. -/
inductive JVal where
  | str (s : String)
  | num (n : Int)
  | boolv (b : Bool)
  | null
  | obj (o : JObj)
deriving DecidableEq

/-- A JSON dictionary (ordered key-value sequence). -/
inductive JObj where
  | nil
  | cons (k : String) (v : JVal) (rest : JObj)
deriving DecidableEq

end

/-- Dictionary lookup: Python `d[e]` / `e in d`. -/
def JObj.find : JObj → String → Option JVal
  | .nil, _ => none
  | .cons k v r, key => if k = key then some v else r.find key

/-- Python `d[e] = value` when the key may or may not be present: replace an
existing binding, else append. -/
def JObj.set : JObj → String → JVal → JObj
  | .nil, k, v => .cons k v .nil
  | .cons k' v' r, k, v => if k' = k then .cons k' v r else .cons k' v' (r.set k v)

/-- Is the dictionary empty (Python truthiness of a dict). -/
def JObj.isNil : JObj → Bool
  | .nil => true
  | .cons _ _ _ => false

/-- The keys of a dictionary, in order (Python `template.keys()`). -/
def JObj.keys : JObj → List String
  | .nil => []
  | .cons k _ r => k :: r.keys

/-- Python truthiness of a JSON value (`if self._resource_data:`). -/
def JVal.truthy : JVal → Bool
  | .str s => !(s = "")
  | .num n => !(n = 0)
  | .boolv b => b
  | .null => false
  | .obj o => !o.isNil

/-- Python truthiness of an optional value (None is falsy). -/
def truthyOpt : Option JVal → Bool
  | none => false
  | some v => v.truthy

/-! ## String helpers

Python strings are sequences of characters; we embed the string operations the
source uses over `List Char` so that their arithmetic (counting separators,
splitting) is directly provable. -/

/-- Python `s.split(c)` for a one-character separator `c`. -/
def splitOnChar (c : Char) : List Char → List (List Char)
  | [] => [[]]
  | x :: xs =>
    let r := splitOnChar c xs
    if x = c then [] :: r
    else
      match r with
      | [] => [[x]]
      | y :: ys => (x :: y) :: ys

theorem splitOnChar_ne_nil (c : Char) (l : List Char) : splitOnChar c l ≠ [] := by
  induction l with
  | nil => simp [splitOnChar]
  | cons x xs ih =>
    simp only [splitOnChar]
    split
    · simp
    · cases h : splitOnChar c xs with
      | nil => simp
      | cons y ys => simp [h]

theorem splitOnChar_length (c : Char) (l : List Char) :
    (splitOnChar c l).length = l.count c + 1 := by
  induction l with
  | nil => simp [splitOnChar]
  | cons x xs ih =>
    by_cases hx : x = c
    · subst hx
      simp [splitOnChar, List.count_cons, ih]
    · have hne := splitOnChar_ne_nil c xs
      cases h : splitOnChar c xs with
      | nil => exact absurd h hne
      | cons y ys =>
        rw [h] at ih
        simp only [splitOnChar, if_neg hx, h, List.length_cons] at ih ⊢
        have hcnt : (x :: xs).count c = xs.count c := by
          simp [List.count_cons, beq_iff_eq, hx, Ne.symm hx]
        rw [hcnt]
        omega

/-- If the separator does not occur, the split is the whole string. -/
theorem splitOnChar_not_mem (c : Char) (l : List Char) (h : c ∉ l) :
    splitOnChar c l = [l] := by
  induction l with
  | nil => simp [splitOnChar]
  | cons x xs ih =>
    have hx : ¬ x = c := fun he => h (he ▸ List.mem_cons_self x xs)
    have hxs : c ∉ xs := fun hm => h (List.mem_cons_of_mem x hm)
    simp only [splitOnChar, if_neg hx, ih hxs]

/-- Splitting `l₁ ++ c :: l₂` where neither side holds the separator. -/
theorem splitOnChar_append (c : Char) (l₁ l₂ : List Char)
    (h₁ : c ∉ l₁) (h₂ : c ∉ l₂) :
    splitOnChar c (l₁ ++ c :: l₂) = [l₁, l₂] := by
  induction l₁ with
  | nil => simp [splitOnChar, splitOnChar_not_mem c l₂ h₂]
  | cons x xs ih =>
    have hx : ¬ x = c := fun he => h₁ (he ▸ List.mem_cons_self x xs)
    have hxs : c ∉ xs := fun hm => h₁ (List.mem_cons_of_mem x hm)
    have ih' := ih hxs
    simp only [List.cons_append, splitOnChar, List.append_eq] at ih' ⊢
    rw [ih']
    simp [hx]

/-- Python `uri.split("?")`, producing `String` pieces. -/
def splitOnQ (s : String) : List String :=
  (splitOnChar '?' s.data).map String.mk

/-- Python `qs.split("&")`. -/
def splitOnAmp (s : String) : List String :=
  (splitOnChar '&' s.data).map String.mk

/-- Python `key.split("/")`. -/
def splitOnSlash (s : String) : List String :=
  (splitOnChar '/' s.data).map String.mk

/-- Python `s.endswith(t)`. -/
def strEndsWith (s t : String) : Bool :=
  t.data.isSuffixOf s.data

/-- Python `s.startswith(t)`. -/
def strStartsWith (s t : String) : Bool :=
  t.data.isPrefixOf s.data

/-- Python `sub in s` (substring containment). -/
def strIn (sub s : String) : Bool :=
  decide (sub.data <:+: s.data)

/-- Assoc-list lookup, Python `d.get(key)` for a dict modelled as pairs. -/
def lookupAssoc {α : Type} : List (String × α) → String → Option α
  | [], _ => none
  | (k, v) :: r, key => if k = key then some v else lookupAssoc r key

/-! ## Request Signer — `VciderApiClient._construct_auth_hdr` (api_client.py)

The keyed-hash primitives (`hmac`/`hashlib`, external crypto libraries) are
passed in as the `hash_funcs` table, mirroring the source's `hash_funcs`
dictionary; each entry maps a hash-type name to a function from (key, msg) to
a hex digest.  Time is the explicit `now` parameter (`int(time.time())`). -/

/-- Errors the signer can raise: `MalformedRequest`, or the `KeyError` a
lookup of an unsupported hash type in `hash_funcs` would raise. -/
inductive SignError where
  | malformedRequest (msg : String)
  | unknownHashType (t : String)
deriving DecidableEq

def construct_auth_hdr (hash_funcs : List (String × (String → String → String)))
    (api_key app_id api_id : String) (time_diff now : Int)
    (http_method uri : String) (data : Option String) (hash_type : String) :
    Except SignError String :=
  -- elems = uri.split("?"); more than one '?' is malformed
  let elems := splitOnQ uri
  if elems.length > 2 then
    .error (.malformedRequest "Malformed query string")
  else
    let pq : String × String :=
      if elems.length = 2 then
        -- sort query parameter pairs alphabetically and rejoin with '&'
        (elems.getD 0 "",
         String.intercalate "&" (List.insertionSort (· ≤ ·) (splitOnAmp (elems.getD 1 ""))))
      else
        -- no query string: fixed placeholder "-"
        (elems.getD 0 "", "-")
    -- ensure the path ends with '/'
    let path := if strEndsWith pq.1 "/" then pq.1 else pq.1 ++ "/"
    let timestamp : Int := now - time_diff
    let msg := http_method ++ ":" ++ path ++ ":" ++ pq.2 ++ ":" ++ toString timestamp ++ ":" ++
               app_id ++ ":" ++ api_id ++ ":" ++ (data.getD "")
    match lookupAssoc hash_funcs hash_type with
    | none => .error (.unknownHashType hash_type)
    | some f =>
        .ok ("VCIDER " ++ app_id ++ ":" ++ api_id ++ ":" ++ toString timestamp ++ ":" ++
             hash_type ++ ":" ++ f api_key msg)

/-- Did the signer signal `MalformedRequest`? -/
def isMalformedResult : Except SignError String → Bool
  | .error (.malformedRequest _) => true
  | _ => false

theorem splitOnQ_length (uri : String) :
    (splitOnQ uri).length = uri.data.count '?' + 1 := by
  simp [splitOnQ, splitOnChar_length]

/-- C6 counterexample: the uri `"x"` does not begin with the root marker `/`
and holds no `?` at all, yet the signer raises nothing and computes a
signature — refuting the claim that `MalformedRequest` is signalled whenever
the path does not begin with the root marker. -/
theorem c6_counterexample :
    strStartsWith "x" "/" = false ∧
    isMalformedResult (construct_auth_hdr [("SHA256", fun k m => k ++ "#" ++ m)]
        "key" "0" "id" 300 1000 "GET" "x" none "SHA256") = false ∧
    construct_auth_hdr [("SHA256", fun k m => k ++ "#" ++ m)]
        "key" "0" "id" 300 1000 "GET" "x" none "SHA256"
      = .ok "VCIDER 0:id:700:SHA256:key#GET:x/:-:700:0:id:" := by
  refine ⟨by decide, by decide, ?_⟩
  rfl

/-- C6 (amended): the signer signals `MalformedRequest` — and computes no
signature — exactly when the uri holds two or more `?` characters; it does
not check whether the path begins with the root marker. -/
theorem c6_malformed_iff_two_qmarks :
    ∀ hash_funcs api_key app_id api_id time_diff now http_method uri data hash_type,
      isMalformedResult (construct_auth_hdr hash_funcs api_key app_id api_id time_diff now
          http_method uri data hash_type) = true ↔ 2 ≤ uri.data.count '?' := by
  intro hf k a i td now m uri d ht
  have hlen := splitOnQ_length uri
  unfold construct_auth_hdr
  by_cases hc : 2 ≤ uri.data.count '?'
  · have hgt : (splitOnQ uri).length > 2 := by omega
    simp [hgt, isMalformedResult, hc]
  · have hgt : ¬ (splitOnQ uri).length > 2 := by omega
    simp only [if_neg hgt]
    cases hl : lookupAssoc hf ht with
    | none => simp [isMalformedResult, hc, hl]
    | some f => simp [isMalformedResult, hc, hl]

/-- Sorting with `≤` on strings maps permutations to the same list. -/
theorem insertionSort_perm_eq (l₁ l₂ : List String) (h : l₁.Perm l₂) :
    List.insertionSort (· ≤ ·) l₁ = List.insertionSort (· ≤ ·) l₂ := by
  refine List.eq_of_perm_of_sorted ?_ (List.sorted_insertionSort _ l₁)
    (List.sorted_insertionSort _ l₂)
  exact ((List.perm_insertionSort _ l₁).trans h).trans (List.perm_insertionSort _ l₂).symm

theorem splitOnQ_of_query (p q : String) (hp : '?' ∉ p.data) (hq : '?' ∉ q.data) :
    splitOnQ (p ++ "?" ++ q) = [p, q] := by
  have : (p ++ "?" ++ q).data = p.data ++ '?' :: q.data := by
    simp [String.data_append]
  simp [splitOnQ, this, splitOnChar_append '?' p.data q.data hp hq]

theorem splitOnQ_of_no_query (p : String) (hp : '?' ∉ p.data) :
    splitOnQ p = [p] := by
  simp [splitOnQ, splitOnChar_not_mem '?' p.data hp]

theorem strEndsWith_append_slash (p : String) : strEndsWith (p ++ "/") "/" = true := by
  simp [strEndsWith, String.data_append, List.isSuffixOf, List.isPrefixOf]

/-- The body of `construct_auth_hdr` once path and canonical query are fixed. -/
def signWith (hash_funcs : List (String × (String → String → String)))
    (api_key app_id api_id : String) (time_diff now : Int)
    (http_method path query : String) (data : Option String) (hash_type : String) :
    Except SignError String :=
  let timestamp : Int := now - time_diff
  let msg := http_method ++ ":" ++ path ++ ":" ++ query ++ ":" ++ toString timestamp ++ ":" ++
             app_id ++ ":" ++ api_id ++ ":" ++ (data.getD "")
  match lookupAssoc hash_funcs hash_type with
  | none => .error (.unknownHashType hash_type)
  | some f =>
      .ok ("VCIDER " ++ app_id ++ ":" ++ api_id ++ ":" ++ toString timestamp ++ ":" ++
           hash_type ++ ":" ++ f api_key msg)

theorem construct_auth_hdr_of_split_query
    (hf : List (String × (String → String → String))) (k a i : String) (td now : Int)
    (m uri : String) (d : Option String) (ht : String) (p q : String)
    (h : splitOnQ uri = [p, q]) :
    construct_auth_hdr hf k a i td now m uri d ht =
      signWith hf k a i td now m (if strEndsWith p "/" then p else p ++ "/")
        (String.intercalate "&" (List.insertionSort (· ≤ ·) (splitOnAmp q))) d ht := by
  unfold construct_auth_hdr
  rw [h]
  rfl

theorem construct_auth_hdr_of_split_plain
    (hf : List (String × (String → String → String))) (k a i : String) (td now : Int)
    (m uri : String) (d : Option String) (ht : String) (p : String)
    (h : splitOnQ uri = [p]) :
    construct_auth_hdr hf k a i td now m uri d ht =
      signWith hf k a i td now m (if strEndsWith p "/" then p else p ++ "/") "-" d ht := by
  unfold construct_auth_hdr
  rw [h]
  rfl

/-- C7: the signature depends only on the canonicalized request: permuting
the query parameters yields the same authorization header (sorting), and a
trailing path separator makes no difference (normalization) — for every
method, body, timestamp, offset, credential and hash table. -/
theorem c7_signature_canonicalization :
    (∀ hf k a i td now m p q₁ q₂ d ht, '?' ∉ p.data → '?' ∉ q₁.data → '?' ∉ q₂.data →
       (splitOnAmp q₁).Perm (splitOnAmp q₂) →
       construct_auth_hdr hf k a i td now m (p ++ "?" ++ q₁) d ht =
       construct_auth_hdr hf k a i td now m (p ++ "?" ++ q₂) d ht) ∧
    (∀ hf k a i td now m p d ht, '?' ∉ p.data → strEndsWith p "/" = false →
       construct_auth_hdr hf k a i td now m p d ht =
       construct_auth_hdr hf k a i td now m (p ++ "/") d ht) := by
  constructor
  · intro hf k a i td now m p q₁ q₂ d ht hp hq₁ hq₂ hperm
    rw [construct_auth_hdr_of_split_query hf k a i td now m _ d ht p q₁
          (splitOnQ_of_query p q₁ hp hq₁),
        construct_auth_hdr_of_split_query hf k a i td now m _ d ht p q₂
          (splitOnQ_of_query p q₂ hp hq₂),
        insertionSort_perm_eq _ _ hperm]
  · intro hf k a i td now m p d ht hp hslash
    have hps : '?' ∉ (p ++ "/").data := by
      rw [String.data_append]
      intro hmem
      rcases List.mem_append.mp hmem with h | h
      · exact hp h
      · exact absurd (List.mem_singleton.mp h) (by decide)
    rw [construct_auth_hdr_of_split_plain hf k a i td now m _ d ht p
          (splitOnQ_of_no_query p hp),
        construct_auth_hdr_of_split_plain hf k a i td now m _ d ht (p ++ "/")
          (splitOnQ_of_no_query _ hps),
        hslash, strEndsWith_append_slash]
    simp

/-- Witness for C7 at concrete inputs: `/a?y=1&x=2` vs `/a?x=2&y=1`, and
`/a/b` vs `/a/b/`. -/
theorem c7_witness :
    ((splitOnAmp "y=1&x=2").Perm (splitOnAmp "x=2&y=1") ∧
     construct_auth_hdr [("SHA256", fun k m => k ++ "#" ++ m)] "key" "0" "id" 300 1000
         "GET" ("/a" ++ "?" ++ "y=1&x=2") none "SHA256" =
     construct_auth_hdr [("SHA256", fun k m => k ++ "#" ++ m)] "key" "0" "id" 300 1000
         "GET" ("/a" ++ "?" ++ "x=2&y=1") none "SHA256") ∧
    (strEndsWith "/a/b" "/" = false ∧
     construct_auth_hdr [("SHA256", fun k m => k ++ "#" ++ m)] "key" "0" "id" 300 1000
         "GET" "/a/b" none "SHA256" =
     construct_auth_hdr [("SHA256", fun k m => k ++ "#" ++ m)] "key" "0" "id" 300 1000
         "GET" ("/a/b" ++ "/") none "SHA256") :=
  ⟨⟨by decide,
    c7_signature_canonicalization.1 _ _ _ _ _ _ _ "/a" "y=1&x=2" "x=2&y=1" _ _
      (by decide) (by decide) (by decide) (by decide)⟩,
   ⟨by decide,
    c7_signature_canonicalization.2 _ _ _ _ _ _ _ "/a/b" _ _ (by decide) (by decide)⟩⟩

/-! ## Resource Model — `VciderResource` (resources.py)

The resource object's mutable fields become `ResourceState`; every network
round trip goes through the owning client, which is abstracted as the oracle
`getReq : String → Except ApiErr JVal` (the client's `_make_get_req`: a GET
whose JSON-decoded body is returned on the expected status, and which raises
`VciderApiException(uri, status, buf)` otherwise). -/

/-- The three arguments of `VciderApiException` (uri, HTTP status, message). -/
structure ApiErr where
  uri : String
  status : Int
  msg : String
deriving DecidableEq

/-- An HTTP response as the `requests` library presents it: status code,
body text, and the Location header (for POST). -/
structure HttpResp where
  status : Int
  content : String
  location : Option String := none
deriving DecidableEq

/-- The typed errors `update()` re-raises: `VciderApiUnavailableResource`
or `VciderApiStaleResource`. -/
inductive UpdateErr where
  | unavailable (msg : String)
  | stale (msg : String)
deriving DecidableEq

/-- The mutable fields of a `VciderResource` instance. -/
structure ResourceState where
  resource_id : Option JVal
  resource_uri : String
  resource_data : Option JVal
  is_updated : Bool
  update_status_msg : String
  deleted : Bool
deriving DecidableEq

/-- `urllib.splitquery`: split at the last `?` (regex `^(.*)\x3f([^?]*)$`). -/
def splitquery (uri : String) : String × Option String :=
  let parts := splitOnQ uri
  if parts.length ≤ 1 then (uri, none)
  else (String.intercalate "?" parts.dropLast, some (parts.getLastD ""))

/-- The decorated URI `update()` fetches: the resource URI with the
link-info and id query-string modifiers appended when not already present.
Mirrors the query-string assembly in `VciderResource.update`. -/
def updateUri (linkinfo_qs id_qs : String) (resource_uri : String) : String :=
  let pq := splitquery resource_uri
  let qs := (pq.2).getD ""
  let new_qs_list : List String :=
    (if strIn linkinfo_qs qs then [] else [linkinfo_qs]) ++
    (if strIn id_qs qs then [] else [id_qs])
  let new_qs := String.intercalate "&" new_qs_list
  -- note: the source appends `new_qs` to a non-empty qs without a separator
  let qs' := if qs = "" then new_qs else qs ++ new_qs
  pq.1 ++ "?" ++ qs'

/-- `VciderResource.update`: refresh the document from the server.  On
success the document is replaced and the resource becomes fully updated; on
failure the status message is recorded and a typed error is raised — 404 or
no prior data gives `unavailable`, otherwise `stale`. -/
def update (linkinfo_qs id_qs : String) (getReq : String → Except ApiErr JVal)
    (s : ResourceState) : ResourceState × Except UpdateErr Unit :=
  let existing_resource := s.resource_data.isSome
  match getReq (updateUri linkinfo_qs id_qs s.resource_uri) with
  | .ok doc =>
      ({ s with resource_data := some doc, is_updated := true, update_status_msg := "Ok" },
       .ok ())
  | .error e =>
      let s' := { s with is_updated := false, update_status_msg := e.msg }
      if e.status = 404 ∨ existing_resource = false then
        (s', .error (.unavailable ("Cannot find resource: " ++ e.msg)))
      else
        (s', .error (.stale ("Cannot update resource: " ++ e.msg)))

/-- Outcome of one nested-path traversal of the document
(the loop body of `_get_data`). -/
inductive PathResult where
  | found (v : JVal)
  | missing
  | noPath
  | notADict
deriving DecidableEq

/-- The traversal loop of `_get_data`: walk the `/`-separated segments; a
segment absent from its dictionary is `missing` (Python `e not in d`).
`noPath` renders the empty segment list (the loop body never runs; cannot
arise from `split`), and `notADict` a traversal into a non-dictionary
(Python would raise `TypeError`). -/
def getPath : JVal → List String → PathResult
  | _, [] => .noPath
  | .obj d, e :: rest =>
      match d.find e with
      | none => .missing
      | some v => if rest.isEmpty then .found v else getPath v rest
  | _, _ :: _ => .notADict

/-- Outcome of the traversal loop of `_set_data` (functionalized mutation:
`done` carries the new document). -/
inductive SetPathResult where
  | done (newDoc : JVal)
  | missing
  | noPath
  | notADict
deriving DecidableEq

/-- The traversal loop of `_set_data`: identical walk, but the final
segment's entry is overwritten (`d[e] = value`).  Note the source also
requires the final segment to already be present (`e not in d` is checked
for every segment, including the last). -/
def setPath : JVal → List String → JVal → SetPathResult
  | _, [], _ => .noPath
  | .obj d, e :: rest, value =>
      match d.find e with
      | none => .missing
      | some v =>
        if rest.isEmpty then .done (.obj (d.set e value))
        else
          match setPath v rest value with
          | .done v' => .done (.obj (d.set e v'))
          | .missing => .missing
          | .noPath => .noPath
          | .notADict => .notADict
  | _, _ :: _, _ => .notADict

/-- What `_get_data` can produce. -/
inductive GetDataResult where
  | ok (v : JVal)
  | attrError (name : String)
  | updErr (e : UpdateErr)
  | pyTypeError
  | fuelOut
deriving DecidableEq

/-- `VciderResource._get_data` with explicit recursion fuel.  The source
recurses after a successful `update()`; since `update()` sets the
`_is_updated` flag, the recursion depth is at most two, so `get_data`
below instantiates the fuel at 2.  The third component counts the
`update()` calls performed. -/
def get_data_fuel (linkinfo_qs id_qs : String) (getReq : String → Except ApiErr JVal) :
    Nat → ResourceState → String → String → ResourceState × GetDataResult × Nat
  | 0, s, _, _ => (s, .fuelOut, 0)
  | fuel + 1, s, name, key =>
    match s.resource_data with
    | none => (s, .pyTypeError, 0)
    | some d =>
      match getPath d (splitOnSlash key) with
      | .found v => (s, .ok v, 0)
      | .missing =>
          if s.is_updated then (s, .attrError name, 0)
          else
            match update linkinfo_qs id_qs getReq s with
            | (s', .ok _) =>
                let r := get_data_fuel linkinfo_qs id_qs getReq fuel s' name key
                (r.1, r.2.1, r.2.2 + 1)
            | (s', .error e) => (s', .updErr e, 1)
      | _ => (s, .pyTypeError, 0)

/-- `VciderResource._get_data` (fuel 2 suffices: see `get_data_fuel`). -/
def get_data (linkinfo_qs id_qs : String) (getReq : String → Except ApiErr JVal)
    (s : ResourceState) (name key : String) : ResourceState × GetDataResult × Nat :=
  get_data_fuel linkinfo_qs id_qs getReq 2 s name key

/-- What `_set_data` can produce.  `setDatAttrError` renders the source's
`return self._set_dat(name, key, value)` after a successful refresh: the
method `_set_dat` does not exist (a misspelling of `_set_data`), so Python
raises `AttributeError` and the write is never retried or performed. -/
inductive SetDataResult where
  | ok
  | attrError (name : String)
  | updErr (e : UpdateErr)
  | setDatAttrError
  | pyTypeError
deriving DecidableEq

/-- `VciderResource._set_data`.  The third component counts `update()`
calls. -/
def set_data (linkinfo_qs id_qs : String) (getReq : String → Except ApiErr JVal)
    (s : ResourceState) (name key : String) (value : JVal) :
    ResourceState × SetDataResult × Nat :=
  match s.resource_data with
  | none => (s, .pyTypeError, 0)
  | some d =>
    match setPath d (splitOnSlash key) value with
    | .done d' => ({ s with resource_data := some d' }, .ok, 0)
    | .missing =>
        if s.is_updated then (s, .attrError name, 0)
        else
          match update linkinfo_qs id_qs getReq s with
          | (s', .ok _) => (s', .setDatAttrError, 1)
          | (s', .error e) => (s', .updErr e, 1)
    | _ => (s, .pyTypeError, 0)

/-- `VciderResource.delete`: `_make_delete_req` to the resource's own URI
(expected status 204, else `ApiException(uri, status, buf)`), then set the
deleted flag. -/
def delete_op (deleteResp : HttpResp) (s : ResourceState) :
    ResourceState × Except ApiErr Unit :=
  if deleteResp.status = 204 then ({ s with deleted := true }, .ok ())
  else (s, .error ⟨s.resource_uri, deleteResp.status, deleteResp.content⟩)

/-- C1: for a resource whose not-yet-fully-updated flag is set, a field read
via nested-path lookup returns the value with no refresh when every segment
is present; when a segment is missing it performs exactly one `update()` and
retries the lookup exactly once, returning the value if then present and
signalling a missing-attribute error otherwise — never a second refresh
(the update count is exactly 1 in both retry outcomes). -/
theorem c1_get_data_one_shot_refresh
    (lq iq : String) (getReq : String → Except ApiErr JVal) (s : ResourceState)
    (d : JVal) (name key : String)
    (hflag : s.is_updated = false) (hdata : s.resource_data = some d) :
    (∀ v, getPath d (splitOnSlash key) = .found v →
       get_data lq iq getReq s name key = (s, .ok v, 0)) ∧
    (∀ nd, getPath d (splitOnSlash key) = .missing →
       getReq (updateUri lq iq s.resource_uri) = .ok nd →
       (∀ v, getPath nd (splitOnSlash key) = .found v →
          get_data lq iq getReq s name key =
            ({ s with resource_data := some nd, is_updated := true,
                      update_status_msg := "Ok" }, .ok v, 1)) ∧
       (getPath nd (splitOnSlash key) = .missing →
          get_data lq iq getReq s name key =
            ({ s with resource_data := some nd, is_updated := true,
                      update_status_msg := "Ok" }, .attrError name, 1))) := by
  constructor
  · intro v hv
    simp [get_data, get_data_fuel, hdata, hv]
  · intro nd hmiss hresp
    have hupd : update lq iq getReq s =
        ({ s with resource_data := some nd, is_updated := true,
                  update_status_msg := "Ok" }, .ok ()) := by
      simp [update, hresp]
    constructor
    · intro v hv
      simp [get_data, get_data_fuel, hdata, hmiss, hflag, hupd, hv]
    · intro hmiss2
      simp [get_data, get_data_fuel, hdata, hmiss, hflag, hupd, hmiss2]

/-- Witness for C1: a resource seeded with related info lacking `info/os`;
one refresh retrieves it; a field absent even from the fresh document
signals the missing-attribute error after that same single refresh. -/
theorem c1_witness :
    (let d : JVal := .obj (.cons "name" (.str "n1") .nil)
     let nd : JVal := .obj (.cons "name" (.str "n1")
                     (.cons "info" (.obj (.cons "os" (.str "Linux") .nil)) .nil))
     let s : ResourceState := ⟨some (.str "id1"), "/api/nodes/1/", some d, false,
                               "Not updated yet", false⟩
     let getReq : String → Except ApiErr JVal := fun _ => .ok nd
     get_data "_linkinfo" "_id" getReq s "name" "name" = (s, .ok (.str "n1"), 0) ∧
     get_data "_linkinfo" "_id" getReq s "os" "info/os" =
       ({ s with resource_data := some nd, is_updated := true,
                 update_status_msg := "Ok" }, .ok (.str "Linux"), 1) ∧
     get_data "_linkinfo" "_id" getReq s "tags" "info/tags" =
       ({ s with resource_data := some nd, is_updated := true,
                 update_status_msg := "Ok" }, .attrError "tags", 1)) := by
  refine ⟨?_, ?_, ?_⟩
  · exact (c1_get_data_one_shot_refresh "_linkinfo" "_id"
      (fun _ => .ok (.obj (.cons "name" (.str "n1")
        (.cons "info" (.obj (.cons "os" (.str "Linux") .nil)) .nil))))
      ⟨some (.str "id1"), "/api/nodes/1/", some (.obj (.cons "name" (.str "n1") .nil)),
        false, "Not updated yet", false⟩
      (.obj (.cons "name" (.str "n1") .nil)) "name" "name" rfl rfl).1
      (.str "n1") (by decide)
  · exact ((c1_get_data_one_shot_refresh "_linkinfo" "_id"
      (fun _ => .ok (.obj (.cons "name" (.str "n1")
        (.cons "info" (.obj (.cons "os" (.str "Linux") .nil)) .nil))))
      ⟨some (.str "id1"), "/api/nodes/1/", some (.obj (.cons "name" (.str "n1") .nil)),
        false, "Not updated yet", false⟩
      (.obj (.cons "name" (.str "n1") .nil)) "os" "info/os" rfl rfl).2
      (.obj (.cons "name" (.str "n1")
        (.cons "info" (.obj (.cons "os" (.str "Linux") .nil)) .nil)))
      (by decide) rfl).1 (.str "Linux") (by decide)
  · exact ((c1_get_data_one_shot_refresh "_linkinfo" "_id"
      (fun _ => .ok (.obj (.cons "name" (.str "n1")
        (.cons "info" (.obj (.cons "os" (.str "Linux") .nil)) .nil))))
      ⟨some (.str "id1"), "/api/nodes/1/", some (.obj (.cons "name" (.str "n1") .nil)),
        false, "Not updated yet", false⟩
      (.obj (.cons "name" (.str "n1") .nil)) "tags" "info/tags" rfl rfl).2
      (.obj (.cons "name" (.str "n1")
        (.cons "info" (.obj (.cons "os" (.str "Linux") .nil)) .nil)))
      (by decide) rfl).2 (by decide)

/-- C3 (code bug): writing a field whose segment is missing on a
not-yet-fully-updated resource performs the one `update()`, but then the
source executes `return self._set_dat(name, key, value)` — a misspelling of
`_set_data` — so Python raises `AttributeError` for the nonexistent method
and the value is never stored, even though the refreshed document holds the
full path (the retried set would have succeeded, as the second conjunct
shows). -/
theorem c3_set_dat_typo :
    (let d : JVal := .obj (.cons "name" (.str "x") .nil)
     let nd : JVal := .obj (.cons "name" (.str "x")
                     (.cons "net_addresses" (.str "10.0.0.0/16") .nil))
     let s : ResourceState := ⟨some (.str "id1"), "/api/nets/1/", some d, false,
                               "Not updated yet", false⟩
     let getReq : String → Except ApiErr JVal := fun _ => .ok nd
     set_data "_linkinfo" "_id" getReq s "net_addresses" "net_addresses" (.str "10.0/16") =
       ({ s with resource_data := some nd, is_updated := true,
                 update_status_msg := "Ok" }, .setDatAttrError, 1) ∧
     setPath nd (splitOnSlash "net_addresses") (.str "10.0/16") =
       .done (.obj (.cons "name" (.str "x")
                   (.cons "net_addresses" (.str "10.0/16") .nil)))) :=
  ⟨rfl, rfl⟩

/-- C5: when `update()` fails, a 404 status or the absence of prior document
data yields the `unavailable` error kind; any other failure with prior data
present yields the `stale` kind; in every failure the previously stored
document is unchanged, and a field present in it is still readable
afterwards. -/
theorem c5_update_error_kinds
    (lq iq : String) (getReq : String → Except ApiErr JVal) (s : ResourceState) (e : ApiErr)
    (hresp : getReq (updateUri lq iq s.resource_uri) = .error e) :
    ((e.status = 404 ∨ s.resource_data = none) →
       update lq iq getReq s =
         ({ s with is_updated := false, update_status_msg := e.msg },
          .error (.unavailable ("Cannot find resource: " ++ e.msg)))) ∧
    (e.status ≠ 404 → s.resource_data ≠ none →
       update lq iq getReq s =
         ({ s with is_updated := false, update_status_msg := e.msg },
          .error (.stale ("Cannot update resource: " ++ e.msg)))) ∧
    ((update lq iq getReq s).1.resource_data = s.resource_data) ∧
    (∀ d name key v, s.resource_data = some d → getPath d (splitOnSlash key) = .found v →
       (get_data lq iq getReq (update lq iq getReq s).1 name key).2.1 = .ok v) := by
  refine ⟨?_, ?_, ?_, ?_⟩
  · intro hcond
    rcases hcond with h404 | hnone
    · simp [update, hresp, h404]
    · simp [update, hresp, hnone]
  · intro h404 hdata
    cases hd : s.resource_data with
    | none => exact absurd hd hdata
    | some d => simp [update, hresp, h404, hd]
  · simp only [update, hresp]
    split <;> rfl
  · intro d name key v hdata hfound
    have h1 : (update lq iq getReq s).1 =
        { s with is_updated := false, update_status_msg := e.msg } := by
      simp only [update, hresp]
      split <;> rfl
    rw [h1]
    simp [get_data, get_data_fuel, hdata, hfound]

/-- Witness for C5: a 500-status failure on a resource holding prior data
gives the stale kind and leaves the field readable; a 404 gives the
unavailable kind. -/
theorem c5_witness :
    (let d : JVal := .obj (.cons "name" (.str "x") .nil)
     let s : ResourceState := ⟨some (.str "id1"), "/api/nodes/1/", some d, true, "Ok", false⟩
     let err : ApiErr := ⟨"/api/nodes/1/", 500, "server down"⟩
     let getReq : String → Except ApiErr JVal := fun _ => .error err
     update "_linkinfo" "_id" getReq s =
       ({ s with is_updated := false, update_status_msg := "server down" },
        .error (.stale "Cannot update resource: server down")) ∧
     (get_data "_linkinfo" "_id" getReq
        (update "_linkinfo" "_id" getReq s).1 "name" "name").2.1 = .ok (.str "x")) ∧
    (let err : ApiErr := ⟨"/api/nodes/2/", 404, "not found"⟩
     let getReq : String → Except ApiErr JVal := fun _ => .error err
     let s2 : ResourceState := ⟨some (.str "id2"), "/api/nodes/2/", none, false, "", false⟩
     update "_linkinfo" "_id" getReq s2 =
       ({ s2 with is_updated := false, update_status_msg := "not found" },
        .error (.unavailable "Cannot find resource: not found"))) := by
  refine ⟨⟨?_, ?_⟩, ?_⟩
  · exact (c5_update_error_kinds "_linkinfo" "_id"
      (fun _ => .error ⟨"/api/nodes/1/", 500, "server down"⟩)
      ⟨some (.str "id1"), "/api/nodes/1/", some (.obj (.cons "name" (.str "x") .nil)),
        true, "Ok", false⟩
      ⟨"/api/nodes/1/", 500, "server down"⟩ rfl).2.1 (by decide) (by decide)
  · exact (c5_update_error_kinds "_linkinfo" "_id"
      (fun _ => .error ⟨"/api/nodes/1/", 500, "server down"⟩)
      ⟨some (.str "id1"), "/api/nodes/1/", some (.obj (.cons "name" (.str "x") .nil)),
        true, "Ok", false⟩
      ⟨"/api/nodes/1/", 500, "server down"⟩ rfl).2.2.2
      (.obj (.cons "name" (.str "x") .nil)) "name" "name" (.str "x") rfl (by decide)
  · exact (c5_update_error_kinds "_linkinfo" "_id"
      (fun _ => .error ⟨"/api/nodes/2/", 404, "not found"⟩)
      ⟨some (.str "id2"), "/api/nodes/2/", none, false, "", false⟩
      ⟨"/api/nodes/2/", 404, "not found"⟩ rfl).1 (Or.inl rfl)

/-- The operations a resource object offers, with the oracle responses they
consume.  `save()` assigns no local field, so its local-state effect is the
identity (it only issues a PUT). -/
inductive ResourceOp where
  | opUpdate
  | opGetData (name key : String)
  | opSetData (name key : String) (value : JVal)
  | opSave
  | opDelete (resp : HttpResp)

/-- The local-state effect of each resource operation. -/
def applyOp (lq iq : String) (getReq : String → Except ApiErr JVal) :
    ResourceOp → ResourceState → ResourceState
  | .opUpdate, s => (update lq iq getReq s).1
  | .opGetData n k, s => (get_data lq iq getReq s n k).1
  | .opSetData n k v, s => (set_data lq iq getReq s n k v).1
  | .opSave, s => s
  | .opDelete r, s => (delete_op r s).1

theorem update_preserves_deleted (lq iq : String) (getReq : String → Except ApiErr JVal)
    (s : ResourceState) : ((update lq iq getReq s).1).deleted = s.deleted := by
  unfold update
  cases hr : getReq (updateUri lq iq s.resource_uri) with
  | ok doc => simp [hr]
  | error e =>
    simp only [hr]
    split <;> rfl

theorem get_data_fuel_preserves_deleted (lq iq : String)
    (getReq : String → Except ApiErr JVal) :
    ∀ fuel s name key,
      ((get_data_fuel lq iq getReq fuel s name key).1).deleted = s.deleted := by
  intro fuel
  induction fuel with
  | zero => intro s n k; rfl
  | succ fuel ih =>
    intro s n k
    unfold get_data_fuel
    cases hd : s.resource_data with
    | none => rfl
    | some d =>
      cases hp : getPath d (splitOnSlash k) with
      | found v => simp [hp]
      | missing =>
        simp only [hp]
        by_cases hu : s.is_updated = true
        · simp [hu]
        · simp only [if_neg hu]
          rcases hupd : update lq iq getReq s with ⟨s', res⟩
          have hdel : s'.deleted = s.deleted := by
            have h := update_preserves_deleted lq iq getReq s
            rw [hupd] at h
            exact h
          cases res with
          | ok u => simp [hupd, ih s' n k, hdel]
          | error e => simp [hupd, hdel]
      | noPath => simp [hp]
      | notADict => simp [hp]

theorem set_data_preserves_deleted (lq iq : String)
    (getReq : String → Except ApiErr JVal) (s : ResourceState) (name key : String)
    (v : JVal) : ((set_data lq iq getReq s name key v).1).deleted = s.deleted := by
  unfold set_data
  cases hd : s.resource_data with
  | none => rfl
  | some d =>
    cases hp : setPath d (splitOnSlash key) v with
    | done d' => simp [hp]
    | missing =>
      simp only [hp]
      by_cases hu : s.is_updated = true
      · simp [hu]
      · simp only [if_neg hu]
        rcases hupd : update lq iq getReq s with ⟨s', res⟩
        have hdel : s'.deleted = s.deleted := by
          have h := update_preserves_deleted lq iq getReq s
          rw [hupd] at h
          exact h
        cases res with
        | ok u => simp [hupd, hdel]
        | error e => simp [hupd, hdel]
    | noPath => simp [hp]
    | notADict => simp [hp]

/-- C9: a successful `delete()` (status 204) sets the deleted flag, and no
resource operation — update, save, field read, field write or another
delete — ever clears it, single-step or along any operation sequence. -/
theorem c9_delete_flag_terminal :
    (∀ (r : HttpResp) (s : ResourceState), r.status = 204 →
       (delete_op r s).1.deleted = true ∧ (delete_op r s).2 = .ok ()) ∧
    (∀ (lq iq : String) (getReq : String → Except ApiErr JVal) (op : ResourceOp)
       (s : ResourceState), s.deleted = true →
       (applyOp lq iq getReq op s).deleted = true) ∧
    (∀ (lq iq : String) (getReq : String → Except ApiErr JVal) (ops : List ResourceOp)
       (s : ResourceState), s.deleted = true →
       (ops.foldl (fun t op => applyOp lq iq getReq op t) s).deleted = true) := by
  have hstep : ∀ (lq iq : String) (getReq : String → Except ApiErr JVal) (op : ResourceOp)
      (s : ResourceState), s.deleted = true →
      (applyOp lq iq getReq op s).deleted = true := by
    intro lq iq getReq op s hdel
    cases op with
    | opUpdate => rw [applyOp, update_preserves_deleted]; exact hdel
    | opGetData n k =>
        rw [applyOp, get_data, get_data_fuel_preserves_deleted]; exact hdel
    | opSetData n k v =>
        rw [applyOp, set_data_preserves_deleted]; exact hdel
    | opSave => exact hdel
    | opDelete r =>
        rw [applyOp]
        unfold delete_op
        by_cases h : r.status = 204 <;> simp [h, hdel]
  refine ⟨?_, hstep, ?_⟩
  · intro r s h
    constructor <;> simp [delete_op, h]
  · intro lq iq getReq ops
    induction ops with
    | nil => intro s h; exact h
    | cons op rest ih =>
      intro s h
      exact ih _ (hstep lq iq getReq op s h)

/-- Witness for C9: deleting a concrete resource sets the flag, and a
subsequent update, read, write, save and failed delete leave it set. -/
theorem c9_witness :
    (let s : ResourceState := ⟨some (.str "id1"), "/api/nodes/1/",
        some (.obj (.cons "name" (.str "x") .nil)), true, "Ok", false⟩
     let getReq : String → Except ApiErr JVal := fun _ => .error ⟨"u", 500, "down"⟩
     let sDel := (delete_op ⟨204, "", none⟩ s).1
     sDel.deleted = true ∧
     ((([ResourceOp.opUpdate, .opGetData "name" "name",
         .opSetData "name" "name" (.str "y"), .opSave,
         .opDelete ⟨500, "err", none⟩]).foldl
        (fun t op => applyOp "_linkinfo" "_id" getReq op t) sDel).deleted = true)) := by
  refine ⟨?_, ?_⟩
  · exact (c9_delete_flag_terminal.1 ⟨204, "", none⟩ _ rfl).1
  · exact c9_delete_flag_terminal.2.2 _ _ _ _ _
      (c9_delete_flag_terminal.1 ⟨204, "", none⟩ _ rfl).1

/-! ## `VciderResource.save` — templated write-back -/

/-- `VciderResource._KEY_TRANSLATE` (base class: the empty dict). -/
def VciderResource_KEY_TRANSLATE : List (String × String) := []

/-- `VciderNetwork._KEY_TRANSLATE` (resources.py, class `VciderNetwork`). -/
def VciderNetwork_KEY_TRANSLATE : List (String × String) :=
  [("opt_auto_addr", "auto_addr"),
   ("opt_encrypted", "encrypted"),
   ("opt_may_use_pub_addr", "may_use_pub_addr")]

/-- The payload `save()` assembles: for every key of the write template,
translate it to the local attribute name via the kind's `_KEY_TRANSLATE`
table (identity when the table has no entry), and include the pair exactly
when the object has that attribute (`hasattr`), with the current in-memory
value (`getattr`).  The object's dynamic attribute lookup is the oracle
`attrs` (some = attribute present with that value, none = absent). -/
def save_payload (key_translate : List (String × String)) (template_keys : List String)
    (attrs : String → Option JVal) : List (String × JVal) :=
  template_keys.filterMap (fun key =>
    (attrs ((lookupAssoc key_translate key).getD key)).map (fun v => (key, v)))

/-- `save()` then issues a PUT of the assembled payload to the resource's
own URI (`_make_put_req(self._resource_uri, tmp_template)`). -/
def save_put (key_translate : List (String × String)) (template_keys : List String)
    (attrs : String → Option JVal) (s : ResourceState) : String × List (String × JVal) :=
  (s.resource_uri, save_payload key_translate template_keys attrs)

/-- C4: the saved payload holds exactly the template keys whose translated
attribute exists on the object, each with its in-memory value; the network
table maps template key `opt_auto_addr` to local attribute `auto_addr`
while kinds without a table translate nothing; on the spec's concrete
example the payload is exactly name and net_addresses, and `tags` (absent
from the template) is omitted. -/
theorem c4_save_field_projection :
    (∀ (kt : List (String × String)) (tk : List String) (attrs : String → Option JVal)
       (k : String) (v : JVal),
       (k, v) ∈ save_payload kt tk attrs ↔
         k ∈ tk ∧ attrs ((lookupAssoc kt k).getD k) = some v) ∧
    lookupAssoc VciderNetwork_KEY_TRANSLATE "opt_auto_addr" = some "auto_addr" ∧
    (∀ k, lookupAssoc VciderResource_KEY_TRANSLATE k = none) ∧
    (let attrs : String → Option JVal := fun a =>
       if a = "name" then some (.str "foo")
       else if a = "net_addresses" then some (.str "10.0/16")
       else if a = "tags" then some (.str "web") else none
     save_payload VciderResource_KEY_TRANSLATE ["name", "net_addresses"] attrs =
       [("name", JVal.str "foo"), ("net_addresses", JVal.str "10.0/16")] ∧
     ∀ v, ("tags", v) ∉ save_payload VciderResource_KEY_TRANSLATE
            ["name", "net_addresses"] attrs) := by
  refine ⟨?_, rfl, fun k => rfl, rfl, ?_⟩
  · intro kt tk attrs k v
    simp only [save_payload, List.mem_filterMap, Option.map_eq_some', Prod.mk.injEq]
    constructor
    · rintro ⟨a, ha, w, hw, rfl, rfl⟩
      exact ⟨ha, hw⟩
    · rintro ⟨hk, hv⟩
      exact ⟨k, hk, v, hv, rfl, rfl⟩
  · intro v hv
    simp [save_payload, List.filterMap_cons, VciderResource_KEY_TRANSLATE,
          lookupAssoc] at hv

/-! ## Authenticated Transport — `VciderApiClient` (api_client.py)

HTTP itself is the external collaborator: the responses the `requests`
library would deliver are an oracle list consumed one per issued request.
JSON decoding (`json.loads`, used by `time_sync`) is the oracle
`parseJson`. -/

/-- `urllib.splittype`: regex `^([^/:]+):(.*)` — a nonempty run of
characters other than `/` and `:` followed by a colon. -/
def splittypeAux : List Char → List Char → Option (String × String)
  | _, [] => none
  | acc, c :: rest =>
      if c = ':' then
        if acc.isEmpty then none else some (String.mk acc.reverse, String.mk rest)
      else if c = '/' then none
      else splittypeAux (c :: acc) rest

def splittype (url : String) : Option String × String :=
  match splittypeAux [] url.data with
  | some (t, rest) => (some t, rest)
  | none => (none, url)

/-- `urllib.splithost`: regex `^//([^/?]*)(.*)$`. -/
def splithost (url : String) : Option String × String :=
  match url.data with
  | '/' :: '/' :: rest =>
      (some (String.mk (rest.takeWhile (fun c => !(c == '/' || c == '?')))),
       String.mk (rest.dropWhile (fun c => !(c == '/' || c == '?'))))
  | _ => (none, url)

/-- Python `"%s" % x` where `x` may be None. -/
def pyStrOfOpt : Option String → String
  | none => "None"
  | some s => s

/-- The fields `VciderApiClient.__init__` assigns. -/
structure ApiClientState where
  api_base_uri : String
  api_id : String
  api_key : String
  app_id : String
  autosync : Bool
  time_diff : Int
  server_info_uri : String
  api_base_uri_path : String
  api_server_root : String
deriving DecidableEq

/-- `VciderApiClient.__init__`.  `app_id` is the string rendering of the
application id (the source holds the int 0 and formats it with `%s`). -/
def VciderApiClient_init (api_base_uri api_id api_key app_id : String)
    (autosync : Bool) : ApiClientState :=
  let base := if strEndsWith api_base_uri "/" then api_base_uri else api_base_uri ++ "/"
  let ts := splittype base
  let sh := splithost ts.2
  { api_base_uri := base, api_id, api_key, app_id, autosync,
    time_diff := 300, server_info_uri := "server_info/",
    api_base_uri_path := sh.2,
    api_server_root := pyStrOfOpt ts.1 ++ "://" ++ pyStrOfOpt sh.1 }

/-- The uri-resolution prologue of `_make_api_req`: absolute paths pass
through; a bare `/` collapses to the empty suffix; everything else is
prefixed with the stored base path. -/
def resolve_uri (api_base_uri_path uri : String) : String :=
  if strStartsWith uri "/" = true ∧ 1 < uri.length then uri
  else api_base_uri_path ++ (if uri = "/" then "" else uri)

/-- `ret.status_code == 403 and "Excessive time drift" in ret.content`. -/
def isDriftResp (r : HttpResp) : Bool :=
  (r.status == 403) && strIn "Excessive time drift" r.content

/-- `int(json.loads(ret.content)['volatile']['server_time'])` as performed
by `time_sync`; `none` renders the ValueError/KeyError Python would raise. -/
def parse_server_time (parseJson : String → Option JVal) (content : String) : Option Int :=
  match parseJson content with
  | some doc =>
    match getPath doc ["volatile", "server_time"] with
    | .found (.num n) => some n
    | .found (.str st) => st.toInt?
    | .found (.boolv b) => some (if b then 1 else 0)
    | _ => none
  | none => none

/-- How one `_make_api_req` call ends. -/
inductive ApiOutcome where
  | resp (r : HttpResp)
  | signerError (e : SignError)
  | excessiveTimeDrift (content : String)
  | syncFailed
  | noMoreResponses
  | fuelOut
deriving DecidableEq

/-- One HTTP request actually issued by the transport: method, resolved
uri, body, and the value of the `nosync` retry flag for that attempt. -/
structure ApiCall where
  method : String
  uri : String
  data : Option String
  nosync : Bool
deriving DecidableEq

/-- Result of a `_make_api_req` call: outcome, the client state after the
call (`time_diff` may have been resynced), the unconsumed oracle responses,
the requests issued (in order), and how many times `time_sync` ran. -/
structure ApiReqResult where
  outcome : ApiOutcome
  client : ApiClientState
  remaining : List HttpResp
  calls : List ApiCall
  syncs : Nat
deriving DecidableEq

/-- `VciderApiClient._make_api_req`, with `time_sync` inlined at its call
site (`time_sync` performs `self.get(self.server_info_uri)` — itself a
`_make_api_req` — then assigns `time_diff = my_time - server_time`).
`now` renders `int(time.time())`; fuel bounds the recursion depth. -/
def make_api_req (hash_funcs : List (String × (String → String → String)))
    (parseJson : String → Option JVal) (now : Int) :
    Nat → ApiClientState → List HttpResp → String → String → Option String → Bool →
    ApiReqResult
  | 0, cfg, resps, _, _, _, _ => ⟨.fuelOut, cfg, resps, [], 0⟩
  | fuel + 1, cfg, resps, http_method, uri, data, nosync =>
    let ruri := resolve_uri cfg.api_base_uri_path uri
    match construct_auth_hdr hash_funcs cfg.api_key cfg.app_id cfg.api_id cfg.time_diff now
        http_method ruri data "SHA256" with
    | .error e => ⟨.signerError e, cfg, resps, [], 0⟩
    | .ok _auth_hdr =>
      match resps with
      | [] => ⟨.noMoreResponses, cfg, resps, [], 0⟩
      | r :: rest =>
        let call : ApiCall := ⟨http_method, ruri, data, nosync⟩
        if isDriftResp r then
          if cfg.autosync && !nosync then
            -- self.time_sync(): ret = self.get(self.server_info_uri)
            let syncRes := make_api_req hash_funcs parseJson now fuel cfg rest
                "GET" cfg.server_info_uri none false
            match syncRes.outcome with
            | .resp sr =>
              match parse_server_time parseJson sr.content with
              | some server_time =>
                let cfg' := { syncRes.client with time_diff := now - server_time }
                -- retry the request once, with the nosync flag set
                let retryRes := make_api_req hash_funcs parseJson now fuel cfg'
                    syncRes.remaining http_method ruri data true
                ⟨retryRes.outcome, retryRes.client, retryRes.remaining,
                 call :: (syncRes.calls ++ retryRes.calls),
                 syncRes.syncs + retryRes.syncs + 1⟩
              | none =>
                ⟨.syncFailed, syncRes.client, syncRes.remaining,
                 call :: syncRes.calls, syncRes.syncs + 1⟩
            | out =>
              ⟨out, syncRes.client, syncRes.remaining, call :: syncRes.calls,
               syncRes.syncs + 1⟩
          else
            ⟨.excessiveTimeDrift r.content, cfg, rest, [call], 0⟩
        else
          ⟨.resp r, cfg, rest, [call], 0⟩

theorem construct_auth_hdr_isOk
    (hf : List (String × (String → String → String))) (k a i : String) (td now : Int)
    (m u : String) (d : Option String) (ht : String) (f : String → String → String)
    (hq : u.data.count '?' ≤ 1) (hl : lookupAssoc hf ht = some f) :
    ∃ hdr, construct_auth_hdr hf k a i td now m u d ht = .ok hdr := by
  have hlen := splitOnQ_length u
  have hgt : ¬ (splitOnQ u).length > 2 := by omega
  unfold construct_auth_hdr
  simp only [if_neg hgt, hl]
  exact ⟨_, rfl⟩

/-- One transport step on a non-drift response: the response is returned,
one request is issued, no sync happens. -/
theorem make_api_req_no_drift
    (hash_funcs : List (String × (String → String → String)))
    (parseJson : String → Option JVal) (now : Int) (fuel : Nat) (cfg : ApiClientState)
    (r : HttpResp) (rest : List HttpResp) (m uri : String) (data : Option String)
    (nosync : Bool) (hdr : String)
    (hc : construct_auth_hdr hash_funcs cfg.api_key cfg.app_id cfg.api_id cfg.time_diff now
        m (resolve_uri cfg.api_base_uri_path uri) data "SHA256" = .ok hdr)
    (hnd : isDriftResp r = false) :
    make_api_req hash_funcs parseJson now (fuel + 1) cfg (r :: rest) m uri data nosync =
      ⟨.resp r, cfg, rest,
       [⟨m, resolve_uri cfg.api_base_uri_path uri, data, nosync⟩], 0⟩ := by
  simp only [make_api_req, hc, hnd]
  simp

/-- One transport step on a drift response when the retry flag is already
set: `ExcessiveTimeDrift` is raised, no sync, no further retry. -/
theorem make_api_req_drift_fatal
    (hash_funcs : List (String × (String → String → String)))
    (parseJson : String → Option JVal) (now : Int) (fuel : Nat) (cfg : ApiClientState)
    (r : HttpResp) (rest : List HttpResp) (m uri : String) (data : Option String)
    (hdr : String)
    (hc : construct_auth_hdr hash_funcs cfg.api_key cfg.app_id cfg.api_id cfg.time_diff now
        m (resolve_uri cfg.api_base_uri_path uri) data "SHA256" = .ok hdr)
    (hd : isDriftResp r = true) :
    make_api_req hash_funcs parseJson now (fuel + 1) cfg (r :: rest) m uri data true =
      ⟨.excessiveTimeDrift r.content, cfg, rest,
       [⟨m, resolve_uri cfg.api_base_uri_path uri, data, true⟩], 0⟩ := by
  simp only [make_api_req, hc, hd]
  simp

/-- One transport step on a drift response with auto-sync on and the retry
flag clear: `time_sync` runs (one GET of the server-info uri plus the
offset assignment) and the request is re-issued once with the flag set. -/
theorem make_api_req_drift_resync
    (hash_funcs : List (String × (String → String → String)))
    (parseJson : String → Option JVal) (now : Int) (fuel : Nat) (cfg : ApiClientState)
    (r : HttpResp) (rest : List HttpResp) (m uri : String) (data : Option String)
    (hdr : String) (sr : HttpResp) (cfg₁ : ApiClientState) (rem₁ : List HttpResp)
    (calls₁ : List ApiCall) (s₁ : Nat) (st : Int) (res₂ : ApiReqResult)
    (hauto : cfg.autosync = true)
    (hc : construct_auth_hdr hash_funcs cfg.api_key cfg.app_id cfg.api_id cfg.time_diff now
        m (resolve_uri cfg.api_base_uri_path uri) data "SHA256" = .ok hdr)
    (hd : isDriftResp r = true)
    (hsync : make_api_req hash_funcs parseJson now fuel cfg rest
        "GET" cfg.server_info_uri none false = ⟨.resp sr, cfg₁, rem₁, calls₁, s₁⟩)
    (hparse : parse_server_time parseJson sr.content = some st)
    (hretry : make_api_req hash_funcs parseJson now fuel
        { cfg₁ with time_diff := now - st } rem₁
        m (resolve_uri cfg.api_base_uri_path uri) data true = res₂) :
    make_api_req hash_funcs parseJson now (fuel + 1) cfg (r :: rest) m uri data false =
      ⟨res₂.outcome, res₂.client, res₂.remaining,
       ⟨m, resolve_uri cfg.api_base_uri_path uri, data, false⟩ :: (calls₁ ++ res₂.calls),
       s₁ + res₂.syncs + 1⟩ := by
  simp only [make_api_req, hc, hd, hauto, hsync, hparse, hretry]
  simp

/-- C2: a 403 response carrying the drift marker, with auto-sync on and the
retry flag clear, makes the transport run `time_sync` exactly once and
re-issue the same request exactly once with the retry flag set; a second
drift failure then raises `ExcessiveTimeDrift` — one sync, two issues of
the logical request in total, never more. -/
theorem c2_drift_retry_once
    (hash_funcs : List (String × (String → String → String)))
    (parseJson : String → Option JVal) (now : Int) (cfg : ApiClientState)
    (m uri : String) (data : Option String) (r1 r2 r3 : HttpResp)
    (rest : List HttpResp) (st : Int) (f : String → String → String) (fuel : Nat)
    (hauto : cfg.autosync = true)
    (hl : lookupAssoc hash_funcs "SHA256" = some f)
    (hq1 : (resolve_uri cfg.api_base_uri_path uri).data.count '?' ≤ 1)
    (hq2 : (resolve_uri cfg.api_base_uri_path cfg.server_info_uri).data.count '?' ≤ 1)
    (hruri : resolve_uri cfg.api_base_uri_path (resolve_uri cfg.api_base_uri_path uri)
       = resolve_uri cfg.api_base_uri_path uri)
    (hd1 : isDriftResp r1 = true) (hnd2 : isDriftResp r2 = false)
    (hd3 : isDriftResp r3 = true)
    (hparse : parse_server_time parseJson r2.content = some st) :
    make_api_req hash_funcs parseJson now (fuel + 3) cfg (r1 :: r2 :: r3 :: rest)
        m uri data false =
      ⟨.excessiveTimeDrift r3.content, { cfg with time_diff := now - st }, rest,
       [⟨m, resolve_uri cfg.api_base_uri_path uri, data, false⟩,
        ⟨"GET", resolve_uri cfg.api_base_uri_path cfg.server_info_uri, none, false⟩,
        ⟨m, resolve_uri cfg.api_base_uri_path uri, data, true⟩], 1⟩ := by
  obtain ⟨h1, hc1⟩ := construct_auth_hdr_isOk hash_funcs cfg.api_key cfg.app_id cfg.api_id
      cfg.time_diff now m (resolve_uri cfg.api_base_uri_path uri) data "SHA256" f hq1 hl
  obtain ⟨h2, hc2⟩ := construct_auth_hdr_isOk hash_funcs cfg.api_key cfg.app_id cfg.api_id
      cfg.time_diff now "GET" (resolve_uri cfg.api_base_uri_path cfg.server_info_uri)
      none "SHA256" f hq2 hl
  obtain ⟨h3, hc3⟩ := construct_auth_hdr_isOk hash_funcs cfg.api_key cfg.app_id cfg.api_id
      (now - st) now m (resolve_uri cfg.api_base_uri_path uri) data "SHA256" f hq1 hl
  have hsync := make_api_req_no_drift hash_funcs parseJson now (fuel + 1) cfg r2
      (r3 :: rest) "GET" cfg.server_info_uri none false h2 hc2 hnd2
  have hc3' : construct_auth_hdr hash_funcs
      ({ cfg with time_diff := now - st } : ApiClientState).api_key
      ({ cfg with time_diff := now - st } : ApiClientState).app_id
      ({ cfg with time_diff := now - st } : ApiClientState).api_id
      ({ cfg with time_diff := now - st } : ApiClientState).time_diff now m
      (resolve_uri ({ cfg with time_diff := now - st } : ApiClientState).api_base_uri_path
        (resolve_uri cfg.api_base_uri_path uri)) data "SHA256" = .ok h3 := by
    simpa [hruri] using hc3
  have hretry := make_api_req_drift_fatal hash_funcs parseJson now (fuel + 1)
      { cfg with time_diff := now - st } r3 rest m
      (resolve_uri cfg.api_base_uri_path uri) data h3 hc3' hd3
  have hmain := make_api_req_drift_resync hash_funcs parseJson now (fuel + 2) cfg r1
      (r2 :: r3 :: rest) m uri data h1 r2 cfg (r3 :: rest)
      [⟨"GET", resolve_uri cfg.api_base_uri_path cfg.server_info_uri, none, false⟩] 0 st
      _ hauto hc1 hd1 hsync hparse hretry
  rw [hmain]
  simp [hruri]

/-- Witness for C2: both attempts answer 403 with the drift marker; the
sync GET in between answers server time 100; the call ends in
`ExcessiveTimeDrift` after exactly one sync and exactly two issues of the
logical request (second with the retry flag). -/
theorem c2_witness :
    (isDriftResp ⟨403, "Excessive time drift detected", none⟩ = true ∧
     isDriftResp ⟨200, "stime", none⟩ = false) ∧
    make_api_req [("SHA256", fun _ _ => "sig")]
        (fun _ => some (.obj (.cons "volatile"
            (.obj (.cons "server_time" (.num 100) .nil)) .nil))) 1000 (0 + 3)
        ⟨"http://h/api/", "i", "k", "0", true, 300, "server_info/", "/api/", "http://h"⟩
        [⟨403, "Excessive time drift detected", none⟩, ⟨200, "stime", none⟩,
         ⟨403, "Excessive time drift detected", none⟩]
        "GET" "nodes/" none false =
      ⟨.excessiveTimeDrift "Excessive time drift detected",
       ⟨"http://h/api/", "i", "k", "0", true, 900, "server_info/", "/api/", "http://h"⟩,
       [],
       [⟨"GET", "/api/nodes/", none, false⟩,
        ⟨"GET", "/api/server_info/", none, false⟩,
        ⟨"GET", "/api/nodes/", none, true⟩], 1⟩ := by
  refine ⟨⟨by decide, by decide⟩, ?_⟩
  exact c2_drift_retry_once [("SHA256", fun _ _ => "sig")]
    (fun _ => some (.obj (.cons "volatile"
        (.obj (.cons "server_time" (.num 100) .nil)) .nil))) 1000
    ⟨"http://h/api/", "i", "k", "0", true, 300, "server_info/", "/api/", "http://h"⟩
    "GET" "nodes/" none ⟨403, "Excessive time drift detected", none⟩ ⟨200, "stime", none⟩
    ⟨403, "Excessive time drift detected", none⟩ [] 100 (fun _ _ => "sig") 0
    rfl rfl (by decide) (by decide) (by decide) (by decide) (by decide) (by decide) rfl

/-! ## `VciderNetwork.add_node` and the resource constructor (C8)

The HTTP requests a flow issues are recorded as an `HttpOp` trace.  The op
performed by an `update()` is always one GET of the decorated resource URI,
so the traces below derive it from the update counts the operations already
report. -/

/-- An HTTP request issued by the resource layer through the client. -/
inductive HttpOp where
  | get (uri : String)
  | post (uri : String) (payload : List (String × JVal))
  | put (uri : String) (payload : List (String × JVal))
  | delete (uri : String)
deriving DecidableEq

/-- How `VciderResource.__init__` can fail (the exception propagating out
of the constructor). -/
inductive InitErr where
  | updErr (e : UpdateErr)
  | attrErr (name : String)
  | pyError
deriving DecidableEq

/-- `VciderResource.__init__`: store the fields; without truthy initial
data run `update()` at once (one GET); derive a missing id from the
document's `meta/id` (which may itself refresh). -/
def resource_init (lq iq : String) (getReq : String → Except ApiErr JVal)
    (resource_id : Option JVal) (resource_uri : String) (resource_data : Option JVal) :
    Except InitErr ResourceState × List HttpOp :=
  let s0 : ResourceState := ⟨resource_id, resource_uri, resource_data, false, "", false⟩
  -- `if self._resource_data:` — Python truthiness, so an empty dict also fetches
  let step1 : Except InitErr ResourceState × List HttpOp :=
    if truthyOpt resource_data then
      (.ok { s0 with is_updated := false, update_status_msg := "Not updated yet" }, [])
    else
      match update lq iq getReq s0 with
      | (s', .ok _) => (.ok s', [.get (updateUri lq iq resource_uri)])
      | (_, .error e) => (.error (.updErr e), [.get (updateUri lq iq resource_uri)])
  match step1 with
  | (.error e, ops) => (.error e, ops)
  | (.ok s1, ops) =>
    -- `if not self._resource_id:` — take the id from the resource data
    if truthyOpt resource_id then (.ok s1, ops)
    else
      match get_data lq iq getReq s1 "id" "meta/id" with
      | (s2, .ok v, n) =>
          (.ok { s2 with resource_id := some v },
           ops ++ (if n = 0 then [] else [.get (updateUri lq iq s1.resource_uri)]))
      | (_, .attrError nm, n) =>
          (.error (.attrErr nm),
           ops ++ (if n = 0 then [] else [.get (updateUri lq iq s1.resource_uri)]))
      | (_, .updErr e, _) =>
          (.error (.updErr e), ops ++ [.get (updateUri lq iq s1.resource_uri)])
      | (_, _, _) => (.error .pyError, ops)

/-- `VciderClient._make_post_req`: POST the payload, require status 201,
and return the Location header with scheme and host stripped
(`splithost(splittype(loc)[1])[1]`; a falsy Location passes through). -/
def make_post_req (postResp : HttpResp) (uri : String)
    (_payload : List (String × JVal)) : Except ApiErr (Option String) :=
  if postResp.status = 201 then
    .ok (match postResp.location with
         | some l => if l = "" then some l else some (splithost (splittype l).2).2
         | none => none)
  else .error ⟨uri, postResp.status, postResp.content⟩

/-- What `add_node` can raise. -/
inductive AddNodeErr where
  | attrErr (name : String)
  | updErr (e : UpdateErr)
  | apiErr (e : ApiErr)
  | templateMissingNodeId
  | initErr (e : InitErr)
  | noLocation
  | pyError
deriving DecidableEq

/-- `VciderNetwork.add_node`: read the add-node template uri from the
network's `links/nodes_list` link metadata, fetch the template (through the
cache), require it to declare `node_id`, POST the single-field payload
`{"node_id": <id>}` to the nodes-list uri, and construct a Port resource
from the returned Location.  Returns the network state, the new port state
and the ops issued. -/
def add_node (lq iq template_link_attr : String)
    (getReq : String → Except ApiErr JVal)
    (template_cache : Option JVal) (postResp : HttpResp)
    (s : ResourceState) (node_id : JVal) :
    Except AddNodeErr (ResourceState × ResourceState) × List HttpOp :=
  -- template_uri = self._get_data("template_uri", "links/nodes_list/<template_link_attr>")
  match get_data lq iq getReq s "template_uri" ("links/nodes_list/" ++ template_link_attr) with
  | (s1, .ok (.str template_uri), n1) =>
    let ops1 : List HttpOp := if n1 = 0 then [] else [.get (updateUri lq iq s.resource_uri)]
    -- template = self._get_template(self._RESOURCE_TYPE + "_add_node", template_uri)
    let tmpl : Except ApiErr (JVal × List HttpOp) :=
      if truthyOpt template_cache then .ok (template_cache.getD .null, [])
      else
        match getReq template_uri with
        | .ok t => .ok (t, [.get template_uri])
        | .error e => .error e
    match tmpl with
    | .error e => (.error (.apiErr e), ops1)
    | .ok (template, ops2) =>
      match template with
      | .obj o =>
        if o.find "node_id" = none then (.error .templateMissingNodeId, ops1 ++ ops2)
        else
          -- tmp_template = dict(node_id=node_id)
          let tmp_template : List (String × JVal) := [("node_id", node_id)]
          -- list_uri = self._get_data("list_uri", "links/nodes_list/uri")
          match get_data lq iq getReq s1 "list_uri" "links/nodes_list/uri" with
          | (s2, .ok (.str list_uri), n2) =>
            let ops3 : List HttpOp :=
              if n2 = 0 then [] else [.get (updateUri lq iq s1.resource_uri)]
            match make_post_req postResp list_uri tmp_template with
            | .error e => (.error (.apiErr e), ops1 ++ ops2 ++ ops3 ++ [.post list_uri tmp_template])
            | .ok none => (.error .noLocation, ops1 ++ ops2 ++ ops3 ++ [.post list_uri tmp_template])
            | .ok (some loc) =>
              -- return VciderPort(self._vcider_client, None, loc)
              match resource_init lq iq getReq none loc none with
              | (.ok port, portOps) =>
                  (.ok (s2, port), ops1 ++ ops2 ++ ops3 ++ [.post list_uri tmp_template] ++ portOps)
              | (.error e, portOps) =>
                  (.error (.initErr e), ops1 ++ ops2 ++ ops3 ++ [.post list_uri tmp_template] ++ portOps)
          | (_, .ok _, _) => (.error .pyError, ops1 ++ ops2)
          | (_, .attrError nm, n2) =>
              (.error (.attrErr nm),
               ops1 ++ ops2 ++ (if n2 = 0 then [] else [.get (updateUri lq iq s1.resource_uri)]))
          | (_, .updErr e, _) =>
              (.error (.updErr e), ops1 ++ ops2 ++ [.get (updateUri lq iq s1.resource_uri)])
          | (_, _, _) => (.error .pyError, ops1 ++ ops2)
      | _ => (.error .pyError, ops1 ++ ops2)
  | (_, .ok _, _) => (.error .pyError, [])
  | (_, .attrError nm, n1) =>
      (.error (.attrErr nm), if n1 = 0 then [] else [.get (updateUri lq iq s.resource_uri)])
  | (_, .updErr e, _) => (.error (.updErr e), [.get (updateUri lq iq s.resource_uri)])
  | (_, _, _) => (.error .pyError, [])

/-- C8 counterexample: on a fully successful concrete `add_node` run the
issued operations are the POST of the single-field payload followed by a
GET of the new port's decorated URI — the port's own fetch happens inside
`add_node` (the constructor receives no document and calls `update()` at
once), refuting the claim that the fetch is deferred until a field access. -/
theorem c8_counterexample :
    add_node "_linkinfo" "_id" "_template"
      (fun u => if u = "/api/ports/7/?_linkinfo&_id" then
          .ok (.obj (.cons "meta" (.obj (.cons "id" (.str "port7") .nil))
               (.cons "vcider_vaddr" (.str "10.0.0.1") .nil)))
        else .error ⟨u, 404, "nf"⟩)
      (some (.obj (.cons "node_id" (.str "") .nil)))
      ⟨201, "", some "http://h/api/ports/7/"⟩
      ⟨some (.str "net1"), "/api/nets/1/",
       some (.obj (.cons "links" (.obj (.cons "nodes_list"
         (.obj (.cons "_template" (.str "/api/nets/1/nodes/template/")
               (.cons "uri" (.str "/api/nets/1/nodes/") .nil))) .nil)) .nil)),
       true, "Ok", false⟩
      (.str "node1") =
    (.ok (⟨some (.str "net1"), "/api/nets/1/",
           some (.obj (.cons "links" (.obj (.cons "nodes_list"
             (.obj (.cons "_template" (.str "/api/nets/1/nodes/template/")
                   (.cons "uri" (.str "/api/nets/1/nodes/") .nil))) .nil)) .nil)),
           true, "Ok", false⟩,
          ⟨some (.str "port7"), "/api/ports/7/",
           some (.obj (.cons "meta" (.obj (.cons "id" (.str "port7") .nil))
                (.cons "vcider_vaddr" (.str "10.0.0.1") .nil))),
           true, "Ok", false⟩),
     [.post "/api/nets/1/nodes/" [("node_id", .str "node1")],
      .get "/api/ports/7/?_linkinfo&_id"]) :=
  rfl

/-- C8 (amended): a successful `add_node(node)` POSTs the single-field
payload naming the node's identifier to the nodes-list URI (requiring a
201-with-Location response) and returns a Port resource built from the
Location header — but that Port's own full fetch is NOT deferred: its
constructor receives no document and performs its GET immediately, inside
`add_node`, before any field access. -/
theorem c8_add_node_posts_and_fetches
    (lq iq tla : String) (getReq : String → Except ApiErr JVal)
    (o : JObj) (tv : JVal) (postResp : HttpResp) (s : ResourceState) (nid : JVal)
    (templUri listUri loc : String) (portDoc idv : JVal)
    (h1 : get_data lq iq getReq s "template_uri" ("links/nodes_list/" ++ tla)
        = (s, .ok (.str templUri), 0))
    (hfind : o.find "node_id" = some tv)
    (h2 : get_data lq iq getReq s "list_uri" "links/nodes_list/uri"
        = (s, .ok (.str listUri), 0))
    (hstatus : postResp.status = 201)
    (hloc : postResp.location = some loc) (hlocne : loc ≠ "")
    (hget : getReq (updateUri lq iq (splithost (splittype loc).2).2) = .ok portDoc)
    (hid : getPath portDoc (splitOnSlash "meta/id") = .found idv) :
    add_node lq iq tla getReq (some (.obj o)) postResp s nid =
      (.ok (s, ⟨some idv, (splithost (splittype loc).2).2, some portDoc, true, "Ok", false⟩),
       [.post listUri [("node_id", nid)],
        .get (updateUri lq iq (splithost (splittype loc).2).2)]) := by
  have htruthy : truthyOpt (some (.obj o)) = true := by
    cases o with
    | nil => simp [JObj.find] at hfind
    | cons k v r => simp [truthyOpt, JVal.truthy, JObj.isNil]
  have hport : resource_init lq iq getReq none ((splithost (splittype loc).2).2) none =
      (.ok ⟨some idv, (splithost (splittype loc).2).2, some portDoc, true, "Ok", false⟩,
       [.get (updateUri lq iq (splithost (splittype loc).2).2)]) := by
    simp [resource_init, truthyOpt, update, hget, get_data, get_data_fuel, hid]
  simp [add_node, h1, htruthy, hfind, h2, make_post_req, hstatus, hloc, hlocne, hport]

/-- Witness for C8 (amended), at the counterexample's concrete inputs. -/
theorem c8_witness :
    add_node "_linkinfo" "_id" "_template"
      (fun u => if u = "/api/ports/7/?_linkinfo&_id" then
          .ok (.obj (.cons "meta" (.obj (.cons "id" (.str "port7") .nil))
               (.cons "vcider_vaddr" (.str "10.0.0.1") .nil)))
        else .error ⟨u, 404, "nf"⟩)
      (some (.obj (.cons "node_id" (.str "") .nil)))
      ⟨201, "", some "http://h/api/ports/7/"⟩
      ⟨some (.str "net2"), "/api/nets/2/",
       some (.obj (.cons "links" (.obj (.cons "nodes_list"
         (.obj (.cons "_template" (.str "/api/nets/2/nodes/template/")
               (.cons "uri" (.str "/api/nets/2/nodes/") .nil))) .nil)) .nil)),
       true, "Ok", false⟩
      (.str "node2") =
    (.ok (⟨some (.str "net2"), "/api/nets/2/",
           some (.obj (.cons "links" (.obj (.cons "nodes_list"
             (.obj (.cons "_template" (.str "/api/nets/2/nodes/template/")
                   (.cons "uri" (.str "/api/nets/2/nodes/") .nil))) .nil)) .nil)),
           true, "Ok", false⟩,
          ⟨some (.str "port7"), "/api/ports/7/",
           some (.obj (.cons "meta" (.obj (.cons "id" (.str "port7") .nil))
                (.cons "vcider_vaddr" (.str "10.0.0.1") .nil))),
           true, "Ok", false⟩),
     [.post "/api/nets/2/nodes/" [("node_id", .str "node2")],
      .get "/api/ports/7/?_linkinfo&_id"]) :=
  c8_add_node_posts_and_fetches "_linkinfo" "_id" "_template" _
    (.cons "node_id" (.str "") .nil) (.str "")
    ⟨201, "", some "http://h/api/ports/7/"⟩ _ (.str "node2")
    "/api/nets/2/nodes/template/" "/api/nets/2/nodes/" "http://h/api/ports/7/"
    (.obj (.cons "meta" (.obj (.cons "id" (.str "port7") .nil))
          (.cons "vcider_vaddr" (.str "10.0.0.1") .nil)))
    (.str "port7") rfl rfl rfl rfl rfl (by decide) rfl (by decide)

/-! ## Client Facade — `VciderClient.__init__` (client.py) -/

/-- Python `s.replace(pat, sub)` (left-to-right, non-overlapping), with
structural fuel to keep the recursion kernel-reducible; fuel equal to the
string's length suffices because every step consumes at least one
character.  An empty pattern returns the string unchanged (the source only
replaces nonempty placeholder tokens). -/
def replaceFuel (pat sub : List Char) : Nat → List Char → List Char
  | 0, l => l
  | _ + 1, [] => []
  | fuel + 1, c :: rest =>
      if pat.isPrefixOf (c :: rest) ∧ pat ≠ [] then
        sub ++ replaceFuel pat sub fuel ((c :: rest).drop pat.length)
      else c :: replaceFuel pat sub fuel rest

def pyReplace (s pat sub : String) : String :=
  String.mk (replaceFuel pat.data sub.data s.data.length s.data)

/-- Nested document lookup used by the discovery code (`root['links']`,
`uri_mods['id']['param']`, ...); `none` renders Python's KeyError. -/
def jget (d : JVal) (path : List String) : Option JVal :=
  match getPath d path with
  | .found v => some v
  | _ => none

/-- As `jget` but requiring a string (every discovered field is used as a
string by the client). -/
def jgetStr (d : JVal) (path : List String) : Option String :=
  match getPath d path with
  | .found (.str s) => some s
  | _ => none

/-- How `VciderClient.__init__` can fail: a GET raised, or a lookup in the
root/server-info documents raised KeyError. -/
inductive ClientInitErr where
  | apiErr (e : ApiErr)
  | keyError
deriving DecidableEq

/-- The fields `VciderClient.__init__` assigns (the template cache starts
as an empty dict and is modelled at its use sites). -/
structure VciderClientState where
  base : ApiClientState
  links : JVal
  nodes_list : String
  networks_list : String
  credentials : String
  server : String
  id_qs : String
  linkinfo_qs : String
  related_qs : String
  list_end_qs : String
  list_start_qs : String
  allowed_methods_link_attr : String
  template_link_attr : String
  id_link_attr : String
  related_link_attr : String
  uri_pattern_node : String
  uri_pattern_net : String
  uri_pattern_port : String
  templ_uri_pattern_node : String
  templ_uri_pattern_net : String
  templ_uri_pattern_port : String
deriving DecidableEq

/-- The root-document lookups of `VciderClient.__init__`: the links dict
and the four main list URIs. -/
def VciderClient_root_links (root : JVal) :
    Option (JVal × String × String × String × String) := do
  let links ← jget root ["links"]
  let nodes_list ← jgetStr links ["nodes_list", "uri"]
  let networks_list ← jgetStr links ["networks_list", "uri"]
  let credentials ← jgetStr links ["credentials", "uri"]
  let server ← jgetStr links ["server", "uri"]
  pure (links, nodes_list, networks_list, credentials, server)

/-- The server-info lookups of `VciderClient.__init__`: the five modifier
parameter names, the four link-attribute names, and the six raw URI
patterns, in source order. -/
def VciderClient_server_fields (server_info : JVal) :
    Option (String × String × String × String × String × String × String × String ×
            String × String × String × String × String × String × String) := do
  let id_qs ← jgetStr server_info ["uri_modifiers", "id", "param"]
  let linkinfo_qs ← jgetStr server_info ["uri_modifiers", "link_info", "param"]
  let related_qs ← jgetStr server_info ["uri_modifiers", "related_info", "param"]
  let list_end_qs ← jgetStr server_info ["uri_modifiers", "list_end_index", "param"]
  let list_start_qs ← jgetStr server_info ["uri_modifiers", "list_start_index", "param"]
  let allowed_methods_link_attr ← jgetStr server_info
      ["uri_modifiers", "link_info", "add_link_attrs", "allowed_methods", "name"]
  let template_link_attr ← jgetStr server_info
      ["uri_modifiers", "link_info", "add_link_attrs", "template_uri", "name"]
  let id_link_attr ← jgetStr server_info
      ["uri_modifiers", "id", "add_link_attrs", "resource_ids", "name"]
  let related_link_attr ← jgetStr server_info
      ["uri_modifiers", "related_info", "add_link_attrs", "related_info", "name"]
  let upn ← jgetStr server_info ["uri_patterns", "node", "uri"]
  let upw ← jgetStr server_info ["uri_patterns", "network", "uri"]
  let upp ← jgetStr server_info ["uri_patterns", "port", "uri"]
  let tpn ← jgetStr server_info ["uri_patterns", "node_template", "uri"]
  let tpw ← jgetStr server_info ["uri_patterns", "network_template", "uri"]
  let tpp ← jgetStr server_info ["uri_patterns", "port_template", "uri"]
  pure (id_qs, linkinfo_qs, related_qs, list_end_qs, list_start_qs,
        allowed_methods_link_attr, template_link_attr, id_link_attr, related_link_attr,
        upn, upw, upp, tpn, tpw, tpp)

/-- `VciderClient.__init__`: run the inherited low-level constructor,
unconditionally overwrite the autosync flag with True ("We are a higher
level client: Always attempt auto sync"), then discover the link URIs from
the root resource and the query-string modifier names, link-attribute
names and URI patterns from the server-info resource. -/
def VciderClient_init (getReq : String → Except ApiErr JVal)
    (api_base_uri api_id api_key app_id : String) (autosync : Bool) :
    Except ClientInitErr VciderClientState :=
  let base0 := VciderApiClient_init api_base_uri api_id api_key app_id autosync
  let base := { base0 with autosync := true }
  match getReq "/" with
  | .error e => .error (.apiErr e)
  | .ok root =>
    match VciderClient_root_links root with
    | none => .error .keyError
    | some (links, nodes_list, networks_list, credentials, server) =>
      match getReq server with
      | .error e => .error (.apiErr e)
      | .ok server_info =>
        match VciderClient_server_fields server_info with
        | none => .error .keyError
        | some (id_qs, linkinfo_qs, related_qs, list_end_qs, list_start_qs,
                allowed_methods_link_attr, template_link_attr, id_link_attr,
                related_link_attr, upn, upw, upp, tpn, tpw, tpp) =>
          .ok { base, links, nodes_list, networks_list, credentials, server,
                id_qs, linkinfo_qs, related_qs, list_end_qs, list_start_qs,
                allowed_methods_link_attr, template_link_attr, id_link_attr,
                related_link_attr,
                uri_pattern_node := pyReplace upn "#node_id#" "%s",
                uri_pattern_net := pyReplace upw "#net_id#" "%s",
                uri_pattern_port := pyReplace upp "#port_id#" "%s",
                templ_uri_pattern_node := pyReplace tpn "#node_id#" "%s",
                templ_uri_pattern_net := pyReplace tpw "#net_id#" "%s",
                templ_uri_pattern_port := pyReplace tpp "#port_id#" "%s" }

/-- C10: for every constructor argument set — an explicit `autosync=False`
included — a successfully constructed facade has auto-sync enabled: the
constructor unconditionally overwrites the inherited flag with True; the
low-level constructor alone would have kept the caller's False. -/
theorem c10_facade_forces_autosync :
    (∀ (getReq : String → Except ApiErr JVal)
       (api_base_uri api_id api_key app_id : String) (autosync : Bool)
       (st : VciderClientState),
       VciderClient_init getReq api_base_uri api_id api_key app_id autosync = .ok st →
       st.base.autosync = true) ∧
    (∀ api_base_uri api_id api_key app_id : String,
       (VciderApiClient_init api_base_uri api_id api_key app_id false).autosync = false) := by
  constructor
  · intro getReq b i k a auto st h
    unfold VciderClient_init at h
    repeat' split at h
    all_goals first
      | (simp only [Except.ok.injEq] at h; subst h; rfl)
      | exact absurd h (by simp)
  · intro b i k a
    rfl

/-- The links dictionary of the C10 witness root document. -/
def c10LinksDoc : JVal :=
  .obj (.cons "nodes_list" (.obj (.cons "uri" (.str "/api/nodes/") .nil))
       (.cons "networks_list" (.obj (.cons "uri" (.str "/api/nets/") .nil))
       (.cons "credentials" (.obj (.cons "uri" (.str "/api/creds/") .nil))
       (.cons "server" (.obj (.cons "uri" (.str "/api/server/") .nil)) .nil))))

/-- The C10 witness server-info document. -/
def c10ServerInfoDoc : JVal :=
  .obj (.cons "uri_modifiers" (.obj
          (.cons "id" (.obj (.cons "param" (.str "_id")
             (.cons "add_link_attrs" (.obj (.cons "resource_ids"
                (.obj (.cons "name" (.str "_id") .nil)) .nil)) .nil)))
          (.cons "link_info" (.obj (.cons "param" (.str "_linkinfo")
             (.cons "add_link_attrs" (.obj
                (.cons "allowed_methods" (.obj (.cons "name" (.str "_methods") .nil))
                (.cons "template_uri" (.obj (.cons "name" (.str "_template") .nil))
                 .nil))) .nil)))
          (.cons "related_info" (.obj (.cons "param" (.str "_related")
             (.cons "add_link_attrs" (.obj (.cons "related_info"
                (.obj (.cons "name" (.str "_related") .nil)) .nil)) .nil)))
          (.cons "list_end_index" (.obj (.cons "param" (.str "_end") .nil))
          (.cons "list_start_index" (.obj (.cons "param" (.str "_start") .nil))
           .nil))))))
       (.cons "uri_patterns" (.obj
          (.cons "node" (.obj (.cons "uri" (.str "/api/nodes/#node_id#/") .nil))
          (.cons "network" (.obj (.cons "uri" (.str "/api/nets/#net_id#/") .nil))
          (.cons "port" (.obj (.cons "uri" (.str "/api/ports/#port_id#/") .nil))
          (.cons "node_template"
             (.obj (.cons "uri" (.str "/api/nodes/#node_id#/template/") .nil))
          (.cons "network_template"
             (.obj (.cons "uri" (.str "/api/nets/#net_id#/template/") .nil))
          (.cons "port_template"
             (.obj (.cons "uri" (.str "/api/ports/#port_id#/template/") .nil))
           .nil)))))))
        .nil))

/-- The C10 witness transport oracle: root and server-info documents. -/
def c10GetReq : String → Except ApiErr JVal := fun u =>
  if u = "/" then .ok (.obj (.cons "links" c10LinksDoc .nil))
  else if u = "/api/server/" then .ok c10ServerInfoDoc
  else .error ⟨u, 404, "not found"⟩

/-- The facade state the C10 witness construction produces. -/
def c10ExpectedState : VciderClientState :=
  { base := ⟨"http://h/api/", "i", "k", "0", true, 300, "server_info/", "/api/",
             "http://h"⟩,
    links := c10LinksDoc,
    nodes_list := "/api/nodes/", networks_list := "/api/nets/",
    credentials := "/api/creds/", server := "/api/server/",
    id_qs := "_id", linkinfo_qs := "_linkinfo", related_qs := "_related",
    list_end_qs := "_end", list_start_qs := "_start",
    allowed_methods_link_attr := "_methods", template_link_attr := "_template",
    id_link_attr := "_id", related_link_attr := "_related",
    uri_pattern_node := "/api/nodes/%s/", uri_pattern_net := "/api/nets/%s/",
    uri_pattern_port := "/api/ports/%s/",
    templ_uri_pattern_node := "/api/nodes/%s/template/",
    templ_uri_pattern_net := "/api/nets/%s/template/",
    templ_uri_pattern_port := "/api/ports/%s/template/" }

/-- Witness for C10: a facade constructed with `autosync=False` succeeds at
discovery and ends with the flag True, while the low-level client alone
keeps the caller's False. -/
theorem c10_witness :
    VciderClient_init c10GetReq "http://h/api/" "i" "k" "0" false =
      .ok c10ExpectedState ∧
    c10ExpectedState.base.autosync = true ∧
    (VciderApiClient_init "http://h/api/" "i" "k" "0" false).autosync = false :=
  ⟨rfl,
   c10_facade_forces_autosync.1 c10GetReq "http://h/api/" "i" "k" "0" false
     c10ExpectedState rfl,
   c10_facade_forces_autosync.2 "http://h/api/" "i" "k" "0"⟩

end VciderAPI
